import Mathlib

/-!
Shallow embedding of the client connection and session coordination core of
the repository: the `ClientManager` component in `src/hfos/web/clientmanager.py`.

The component keeps three Python dicts (`_clients`, `_sockets`, `_users`) and
reacts to `connect`, `disconnect`, `read` and `authentication` events, firing
`write`, `send`, `authenticationrequest`, `clientdisconnect` and authorized
events.  Python dicts are modelled as association lists that preserve
insertion order (as Python dicts do); `d[k] = v` is `dictSet`, `del d[k]` is
`dictDel`, `d[k]` / `k in d` go through `dictGet`.  An exception that escapes
a handler is reported as a `Bool` flag; exceptions caught by a `try/except`
inside a handler are resolved in place, mirroring the source's control flow.
The opaque transport handle is modelled as `Nat`; `uuid4()` results enter the
model as explicit parameters of the events that generate them.
-/

/-- Python-dict lookup `d[k]` / `k in d` on an insertion-ordered assoc list. -/
def dictGet {α β : Type} [DecidableEq α] : List (α × β) → α → Option β
  | [], _ => none
  | (k', v) :: t, k => if k = k' then some v else dictGet t k

/-- Python-dict update `d[k] = v`: replaces in place, else appends. -/
def dictSet {α β : Type} [DecidableEq α] : List (α × β) → α → β → List (α × β)
  | [], k, v => [(k, v)]
  | (k', v') :: t, k, v => if k = k' then (k, v) :: t else (k', v') :: dictSet t k v

/-- Python-dict deletion `del d[k]`: removes the first pair with key `k`. -/
def dictDel {α β : Type} [DecidableEq α] : List (α × β) → α → List (α × β)
  | [], _ => []
  | (k', v') :: t, k => if k = k' then t else (k', v') :: dictDel t k

/-- Account record as the router sees it: a uuid and the opaque result of
`serializablefields()` (the externally-visible projection). -/
structure Account where
  uuid : String
  fields : String
deriving DecidableEq

/-- Profile record: only its `serializablefields()` projection is used. -/
structure Profile where
  fields : String
deriving DecidableEq

/-- Client configuration: stable client uuid, name, and its
`serializablefields()` projection. -/
structure ClientConfig where
  clientuuid : String
  name : String
  fields : String
deriving DecidableEq

/-- Modelled from the spec: the `clientobjects` module (`Socket` record) is
imported by `clientmanager.py` but absent from `src/`.  Spec section 3: a
Socket holds the origin IP and the currently-bound client identifier (the
transport handle is the registry key). -/
structure Socket where
  ip : String
  clientuuid : String
deriving DecidableEq

/-- Modelled from the spec: the `clientobjects` module (`Client` record) is
absent from `src/`.  Spec section 3: sock handle, origin IP, client id,
bound user id (absent until authenticated), name and config blob (assigned at
authentication).  `connect` calls `Client(sock, ip, uuid)`, so user id, name
and config default to absent/empty. -/
structure Client where
  sock : Nat
  ip : String
  uuid : String
  useruuid : Option String
  name : String
  config : Option ClientConfig
deriving DecidableEq

/-- Modelled from the spec: the `clientobjects` module (`User` record) is
absent from `src/`.  Spec section 3: account, profile, user id, and an
ordered list of attached client ids; `authentication` appends to it right
after `User(account, profile, useruuid)` is built, so the list starts empty. -/
structure User where
  account : Account
  profile : Profile
  uuid : String
  clients : List String
deriving DecidableEq

/-- Structured outbound JSON packets built by the component:
`env` is `{"component": c, "action": a, "data": fields}` and `info` is
`{"type": "info", "content": c}` (the connect acknowledgment). -/
inductive Packet where
  | env (component action : String) (data : String)
  | info (content : String)
deriving DecidableEq

/-- Payload handed to a transport `write`: `json p` is `json.dumps` of a
structured packet, `jsonStr s` is `json.dumps` of an opaque `event.packet`,
`raw s` is an unserialized `event.packet`, `content s` is a broadcast's
`event.content` written verbatim. -/
inductive Payload where
  | json (p : Packet)
  | jsonStr (s : String)
  | raw (s : String)
  | content (s : String)
deriving DecidableEq

/-- Payload of an inbound request's `data` field: a well-formed auth login
carries username, password and the requested client uuid; anything else is
opaque to this component. -/
inductive ReqData where
  | loginData (username password clientuuid : String)
  | other (s : String)
deriving DecidableEq

/-- An inbound `read` message after `json.loads`: undecodable input, a decoded
value without `message.component`/`message.action`, or a proper envelope
(whose `data` member may be absent). -/
inductive Msg where
  | invalid
  | noComponentAction
  | envelope (component action : String) (data : Option ReqData)
deriving DecidableEq

/-- Events fired by the component handlers (`self.fireEvent(...)` calls):
transport writes, `authenticationrequest` to the auth channel,
`clientdisconnect`, authorized component events, and `send` events queued by
`broadcast`.  `clientdisconnectEv`'s user id argument is `none` when the
source calls `clientdisconnect(clientuuid)` with one argument. -/
inductive Fired where
  | write (sock : Nat) (payload : Payload)
  | authrequest (username password : String) (clientuuid : Option String)
      (requestedclientuuid : String) (sock : Nat)
  | clientdisconnectEv (clientuuid : Option String) (useruuid : Option String)
  | authorized (component : String) (user : User) (action : String)
      (data : Option ReqData) (client : Client)
  | sendEv (uuid content : String) (sendtype : String)
deriving DecidableEq

/-- The component state: the `_clients`, `_sockets` and `_users` dicts of
`ClientManager.__init__` (`src/hfos/web/clientmanager.py` lines 34-40). -/
structure CMState where
  clients : List (String × Client)
  sockets : List (Nat × Socket)
  users : List (String × User)
deriving DecidableEq

/-- The freshly initialised component: all three dicts empty. -/
def initState : CMState := ⟨[], [], []⟩

/-- `ClientManager.connect` (lines 58-77): on a fresh handle, registers a
Socket and a Client under a newly generated uuid (`freshuuid` stands for the
`uuid4()` result) and writes a connected acknowledgment; on an already
registered handle it only logs.  Returns the new state and the fired events. -/
def connect (s : CMState) (sock : Nat) (ip : String) (freshuuid : String) :
    CMState × List Fired :=
  match dictGet s.sockets sock with
  | some _ => (s, [])
  | none =>
      ({ s with
          sockets := dictSet s.sockets sock ⟨ip, freshuuid⟩,
          clients := dictSet s.clients freshuuid ⟨sock, ip, freshuuid, none, "", none⟩ },
       [Fired.write sock (Payload.json (Packet.info "Connected"))])

/-- `ClientManager.disconnect` (lines 42-56): unknown handles are ignored;
otherwise the bound client is looked up (`self._clients[clientuuid]` raises a
`KeyError` past the handler if absent — the third component reports that), a
`clientdisconnect` event is fired, and both dict entries are deleted.  The
user's client list is not touched here. -/
def disconnect (s : CMState) (sock : Nat) : CMState × List Fired × Bool :=
  match dictGet s.sockets sock with
  | none => (s, [], false)
  | some sockobj =>
      match dictGet s.clients sockobj.clientuuid with
      | none => (s, [], true)
      | some c =>
          ({ s with
              sockets := dictDel s.sockets sock,
              clients := dictDel s.clients sockobj.clientuuid },
           [Fired.clientdisconnectEv (some sockobj.clientuuid) c.useruuid], false)

/-- The `send` event's fields as `ClientManager.send` consumes them:
target uuid, opaque packet, `sendtype` ("user" targets all of a user's
clients, anything else a single client), and the `raw` flag. -/
structure SendEvent where
  uuid : String
  packet : String
  sendtype : String
  raw : Bool
deriving DecidableEq

/-- The `broadcast` event's fields as `ClientManager.broadcast` consumes
them: the `broadcasttype` flag ("users", "clients" or "socks") and the
content written to the targets. -/
structure BroadcastEvent where
  broadcasttype : String
  content : String
deriving DecidableEq

/-- The payload written for one target in `send`: `json.dumps(event.packet)`
unless `event.raw` is set. -/
def sendPayload (raw : Bool) (packet : String) : Payload :=
  if raw then Payload.raw packet else Payload.jsonStr packet

/-- The `for clientuuid in clients` loop of `ClientManager.send` (lines
90-97).  Each resolved client gets a `write`; a client id missing from
`self._clients` raises a `KeyError` that jumps to the `except` at line 112,
so the remaining ids of the same list are not attempted.  Writes fired before
the exception stand. -/
def sendUserLoop (cls : List (String × Client)) (raw : Bool) (packet : String) :
    List String → List Fired
  | [] => []
  | cu :: rest =>
      match dictGet cls cu with
      | none => []
      | some c => Fired.write c.sock (sendPayload raw packet) :: sendUserLoop cls raw packet rest

/-- `ClientManager.send` (lines 79-113): dispatch on `sendtype`, resolve the
user or client, fan out writes; every exception is caught by the `try` that
wraps the whole body, so nothing raises past the handler and the state is
never changed. -/
def send (s : CMState) (ev : SendEvent) : List Fired :=
  if ev.sendtype = "user" then
    match dictGet s.users ev.uuid with
    | none => []
    | some u => sendUserLoop s.clients ev.raw ev.packet u.clients
  else
    match dictGet s.clients ev.uuid with
    | none => []
    | some c => [Fired.write c.sock (sendPayload ev.raw ev.packet)]

/-- `ClientManager.broadcast` (lines 115-134): for "users" it queues one
`send` event per known user (each later handled independently by `send`);
for "clients" it writes the content to every registered client's socket; for
"socks" to every raw handle; other flags do nothing.  State is never
changed. -/
def broadcast (s : CMState) (ev : BroadcastEvent) : List Fired :=
  if ev.broadcasttype = "users" then
    s.users.map (fun p => Fired.sendEv p.1 ev.content "user")
  else if ev.broadcasttype = "clients" then
    s.clients.map (fun p => Fired.write p.2.sock (Payload.content ev.content))
  else if ev.broadcasttype = "socks" then
    s.sockets.map (fun p => Fired.write p.1 (Payload.content ev.content))
  else []

/-- `ClientManager._handleAuthenticationEvents` (lines 152-168): a "login"
action fires an `authenticationrequest` when the payload carries username,
password and clientuuid (a malformed payload's KeyError/TypeError is caught
and only logged); a "logout" action fires `clientdisconnect(clientuuid)`. -/
def handleAuthenticationEvents (requestdata : Option ReqData) (requestaction : String)
    (clientuuid : Option String) (sock : Nat) : List Fired :=
  if requestaction = "login" then
    match requestdata with
    | some (ReqData.loginData u p rcu) => [Fired.authrequest u p clientuuid rcu sock]
    | _ => []
  else if requestaction = "logout" then
    [Fired.clientdisconnectEv clientuuid none]
  else []

/-- `ClientManager._handleAuthorizedEvents` (lines 136-150): looks the
component up in the `AuthorizedEvents` table (modelled by the key list
`authEvents`, the table itself living in `hfos.events` outside this
component) and fires `event(user, action, data, client)`; a missing key's
KeyError is caught by the handler's own `try` and only logged.  The `user`
reaching this point from `read` is always a resolved `User` object, so the
falsy-user guard at line 140 does not fire. -/
def handleAuthorizedEvents (authEvents : List String) (component : String)
    (action : String) (data : Option ReqData) (user : User) (client : Client) :
    List Fired :=
  if component ∈ authEvents then
    [Fired.authorized component user action data client]
  else []

/-- `ClientManager.read` (lines 171-231).  Control flow mirrored from the
source: the socket resolution failure at line 180 is caught WITHOUT
returning, leaving `clientuuid = None`; undecodable or envelope-less messages
return early; an "auth" component is routed to the authentication
sub-handler before the client is resolved; an unresolvable client returns
("No useruuid!"); the logout branch at lines 215-220 is not guarded by any
`try`, so a missing user binding, a missing user record, or a client id
absent from the user's list raises past the handler (third component true);
for other components an unresolved user returns, and a resolved one is
dispatched through `_handleAuthorizedEvents`. -/
def readHandler (authEvents : List String) (s : CMState) (sock : Nat) (msg : Msg) :
    CMState × List Fired × Bool :=
  let clientuuid : Option String := (dictGet s.sockets sock).map Socket.clientuuid
  match msg with
  | Msg.invalid => (s, [], false)
  | Msg.noComponentAction => (s, [], false)
  | Msg.envelope comp act data =>
      let authFired : List Fired :=
        if comp = "auth" then handleAuthenticationEvents data act clientuuid sock else []
      match clientuuid with
      | none => (s, authFired, false)
      | some cu =>
          match dictGet s.clients cu with
          | none => (s, authFired, false)
          | some client =>
              if comp = "auth" then
                if act = "logout" then
                  match client.useruuid with
                  | none => (s, authFired, true)
                  | some uu =>
                      match dictGet s.users uu with
                      | none => (s, authFired, true)
                      | some user =>
                          if cu ∈ user.clients then
                            ({ s with
                                users := dictSet s.users uu
                                  { user with clients := user.clients.erase cu },
                                clients := dictSet s.clients cu
                                  { client with useruuid := none } },
                             authFired, false)
                          else (s, authFired, true)
                else (s, authFired, false)
              else
                match client.useruuid with
                | none => (s, authFired, false)
                | some uu =>
                    match dictGet s.users uu with
                    | none => (s, authFired, false)
                    | some user =>
                        (s, authFired ++
                          handleAuthorizedEvents authEvents comp act data user client,
                         false)

/-- The authentication grant event's payload (`hfos.events.authentication`,
consumed at lines 239-244): `event.userdata = (account, profile,
clientconfig)`, `event.useruuid`, `event.clientuuid` (the originating
temporary id) and `event.sock`. -/
structure Grant where
  account : Account
  profile : Profile
  clientconfig : ClientConfig
  useruuid : String
  clientuuid : String
  sock : Nat
deriving DecidableEq

/-- `ClientManager.authentication` (lines 233-286).  Resolves or creates the
User — note the source stores a NEWLY created user under `account.uuid`
while it looked it up under `event.useruuid` (lines 247-251); appends the
config's client id to the user's list unless already present; then updates
the socket binding and re-keys the client entry (delete old temporary key,
insert stable key), and fires the three outbound packets.  The whole body
sits in one `try`, so a missing socket (line 260) or a missing originating
client (line 266) aborts the rest — mutations already made stand, later ones
and the writes never happen, and nothing raises past the handler. -/
def authentication (s : CMState) (g : Grant) : CMState × List Fired :=
  let clientuuid := g.clientconfig.clientuuid
  let resolved : String × User × List (String × User) :=
    match dictGet s.users g.useruuid with
    | some u => (g.useruuid, u, s.users)
    | none =>
        let u : User := ⟨g.account, g.profile, g.useruuid, []⟩
        (g.account.uuid, u, dictSet s.users g.account.uuid u)
  let userkey := resolved.1
  let signedinuser := resolved.2.1
  let users0 := resolved.2.2
  let users1 :=
    if clientuuid ∈ signedinuser.clients then users0
    else dictSet users0 userkey
      { signedinuser with clients := signedinuser.clients ++ [clientuuid] }
  match dictGet s.sockets g.sock with
  | none => ({ s with users := users1 }, [])
  | some sockobj =>
      let sockets1 := dictSet s.sockets g.sock { sockobj with clientuuid := clientuuid }
      let newclient : Client :=
        ⟨g.sock, sockobj.ip, clientuuid, some g.useruuid, g.clientconfig.name,
          some g.clientconfig⟩
      match dictGet s.clients g.clientuuid with
      | none => ({ s with users := users1, sockets := sockets1 }, [])
      | some _ =>
          ({ clients := dictSet (dictDel s.clients g.clientuuid) clientuuid newclient,
             sockets := sockets1,
             users := users1 },
           [Fired.write g.sock (Payload.json (Packet.env "auth" "login" g.account.fields)),
            Fired.write g.sock (Payload.json (Packet.env "profile" "get" g.profile.fields)),
            Fired.write g.sock (Payload.json (Packet.env "clientconfig" "get" g.clientconfig.fields))])

/-- Concrete state for the C1 counterexample: user "U" lists clients
["bad", "good"]; "bad" has no registry entry, "good" is registered with
socket 7. -/
def sendAbortState : CMState :=
  ⟨[("good", ⟨7, "ip", "good", some "U", "", none⟩)], [],
   [("U", ⟨⟨"U", "af"⟩, ⟨"pf"⟩, "U", ["bad", "good"]⟩)]⟩

/-- Spec-side description used by the amended C1: the resolvable prefix of a
target list — the clients of the ids up to (excluding) the first id missing
from the registry, where the fan-out stops. -/
def deliveredTargets (cls : List (String × Client)) : List String → List Client
  | [] => []
  | cu :: rest =>
      match dictGet cls cu with
      | none => []
      | some c => c :: deliveredTargets cls rest

/-- Spec-side description of the amended C1 send behaviour, total over both
branches of `ClientManager.send`: an unknown user or client id yields no
writes; a known client id yields exactly one write to its socket; a known
user's fan-out writes only to the clients of the longest resolvable prefix
of its client list — the first unresolvable id ends the fan-out. -/
def sendSpec (s : CMState) (ev : SendEvent) : List Fired :=
  if ev.sendtype = "user" then
    match dictGet s.users ev.uuid with
    | none => []
    | some u => (deliveredTargets s.clients u.clients).map
        (fun c => Fired.write c.sock (sendPayload ev.raw ev.packet))
  else
    match dictGet s.clients ev.uuid with
    | none => []
    | some c => [Fired.write c.sock (sendPayload ev.raw ev.packet)]

/-- The fired events an unknown-socket read may still produce: only
authentication-request or client-disconnect events carrying a null client
id (no writes, no authorized dispatch). -/
def nullClientFired (f : Fired) : Prop :=
  match f with
  | Fired.authrequest _ _ cu _ _ => cu = none
  | Fired.clientdisconnectEv cu _ => cu = none
  | _ => False

/-- Concrete state for the C3 counterexample: socket 0 is registered and bound
to client "c0", which is connected but not authenticated (`useruuid` unset). -/
def logoutRaiseState : CMState :=
  ⟨[("c0", ⟨0, "ip", "c0", none, "", none⟩)], [(0, ⟨"ip", "c0"⟩)], []⟩

/-- Spec-side characterisation for the amended C3: a read raises out of the
handler exactly when the message is an auth/logout envelope whose originating
socket resolves to a registered client with a broken user binding — no bound
user, a bound user absent from the session table, or a session list not
containing the client id (then `list.remove` raises `ValueError`). -/
def readRaiseCondition (s : CMState) (sock : Nat) (msg : Msg) : Bool :=
  match msg with
  | Msg.invalid => false
  | Msg.noComponentAction => false
  | Msg.envelope comp act _ =>
      match (dictGet s.sockets sock).map Socket.clientuuid with
      | none => false
      | some cu =>
          match dictGet s.clients cu with
          | none => false
          | some c =>
              if comp = "auth" then
                if act = "logout" then
                  match c.useruuid with
                  | none => true
                  | some uu =>
                      match dictGet s.users uu with
                      | none => true
                      | some user => if cu ∈ user.clients then false else true
                else false
              else false

/-- Concrete fixture for the C4 counterexample: socket 1 connected with
temporary client id "C1", no session for "U1". -/
def grantState : CMState :=
  ⟨[("C1", ⟨1, "10.0.0.1", "C1", none, "", none⟩)], [(1, ⟨"10.0.0.1", "C1"⟩)], []⟩

/-- A grant carrying user_id "U1" and client_config id "CFG1" whose account
record has uuid "A1": the claim quantifies over every such grant, but the
source stores a newly created User under `account.uuid` (line 251), not under
`event.useruuid`. -/
def mismatchedGrant : Grant :=
  ⟨⟨"A1", "af"⟩, ⟨"pf"⟩, ⟨"CFG1", "nm", "cf"⟩, "U1", "C1", 1⟩

/-- One externally delivered event of the transition system formed by the
four handlers of the component. -/
inductive Event where
  | connectEv (sock : Nat) (ip freshuuid : String)
  | disconnectEv (sock : Nat)
  | readEv (sock : Nat) (msg : Msg)
  | authEv (g : Grant)

/-- The registry state after one event: the state component of the handler's
result (fired events and the raise flag are dropped). -/
def stepState (A : List String) (s : CMState) : Event → CMState
  | Event.connectEv sock ip freshuuid => (connect s sock ip freshuuid).1
  | Event.disconnectEv sock => (disconnect s sock).1
  | Event.readEv sock msg => (readHandler A s sock msg).1
  | Event.authEv g => (authentication s g).1

/-- States reachable from the freshly initialised component by any sequence
of connect, read, authentication-grant and disconnect events. -/
inductive Reachable (A : List String) : CMState → Prop where
  | init : Reachable A initState
  | step (s : CMState) (e : Event) : Reachable A s → Reachable A (stepState A s e)

/-- The claimed invariant: every client id in every session's client list is
a key of the client registry. -/
def SessionRefsRegistered (s : CMState) : Prop :=
  ∀ p ∈ s.users, ∀ cid ∈ p.2.clients, (dictGet s.clients cid).isSome = true

instance (s : CMState) : Decidable (SessionRefsRegistered s) := by
  unfold SessionRefsRegistered
  exact inferInstance

/-- The grant used by the C6 counterexample (ids all consistent). -/
def c6Grant : Grant := ⟨⟨"U1", "af"⟩, ⟨"pf"⟩, ⟨"CFG1", "nm", "cf"⟩, "U1", "C1", 0⟩

/-- The C6 counterexample state: connect socket 0, deliver a clean
authentication grant for it, then disconnect it. -/
def c6FinalState : CMState :=
  stepState [] (stepState [] (stepState [] initState (Event.connectEv 0 "ip" "C1"))
    (Event.authEv c6Grant)) (Event.disconnectEv 0)

/-- Guard under which the amended C6 holds: a disconnect only tears down a
socket whose bound client id is not attached to any user's client list, and
a grant names a currently registered socket and a registered originating
client id not attached to any user's client list. -/
def eventGuard (s : CMState) : Event → Prop
  | Event.disconnectEv sock =>
      ∀ so, dictGet s.sockets sock = some so → ∀ p ∈ s.users, so.clientuuid ∉ p.2.clients
  | Event.authEv g =>
      (dictGet s.sockets g.sock).isSome = true ∧
      (dictGet s.clients g.clientuuid).isSome = true ∧
      ∀ p ∈ s.users, g.clientuuid ∉ p.2.clients
  | _ => True

/-- States reachable from the freshly initialised component when every
disconnect and grant satisfies its guard. -/
inductive ReachableGuarded (A : List String) : CMState → Prop where
  | init : ReachableGuarded A initState
  | step (s : CMState) (e : Event) : ReachableGuarded A s → eventGuard s e →
      ReachableGuarded A (stepState A s e)

theorem dictGet_set_self {α β : Type} [DecidableEq α] (l : List (α × β)) (k : α) (v : β) :
    dictGet (dictSet l k v) k = some v := by
  induction l with
  | nil => simp [dictGet, dictSet]
  | cons p t ih =>
      obtain ⟨k', v'⟩ := p
      by_cases h : k = k' <;> simp [dictGet, dictSet, h, ih]

theorem dictGet_set_ne {α β : Type} [DecidableEq α] (l : List (α × β)) (k k' : α) (v : β)
    (h : k' ≠ k) : dictGet (dictSet l k v) k' = dictGet l k' := by
  induction l with
  | nil => simp [dictGet, dictSet, h]
  | cons p t ih =>
      obtain ⟨k₀, v₀⟩ := p
      by_cases hk : k = k₀
      · subst hk; simp [dictGet, dictSet, h]
      · by_cases hk' : k' = k₀ <;> simp [dictGet, dictSet, hk, hk', ih]

theorem dictGet_del_ne {α β : Type} [DecidableEq α] (l : List (α × β)) (k k' : α)
    (h : k' ≠ k) : dictGet (dictDel l k) k' = dictGet l k' := by
  induction l with
  | nil => simp [dictGet, dictDel]
  | cons p t ih =>
      obtain ⟨k₀, v₀⟩ := p
      by_cases hk : k = k₀
      · subst hk; simp [dictGet, dictDel, h]
      · by_cases hk' : k' = k₀ <;> simp [dictGet, dictDel, hk, hk', ih]

theorem dictDel_set_of_none {α β : Type} [DecidableEq α] (l : List (α × β)) (k : α) (v : β)
    (h : dictGet l k = none) : dictDel (dictSet l k v) k = l := by
  induction l with
  | nil => simp [dictGet, dictSet, dictDel]
  | cons p t ih =>
      obtain ⟨k₀, v₀⟩ := p
      by_cases hk : k = k₀
      · subst hk; simp [dictGet] at h
      · simp [dictGet, hk] at h
        simp [dictSet, dictDel, hk, ih h]

theorem dictGet_none_of_not_mem_keys {α β : Type} [DecidableEq α] (l : List (α × β)) (k : α)
    (h : k ∉ l.map Prod.fst) : dictGet l k = none := by
  induction l with
  | nil => rfl
  | cons p t ih =>
      obtain ⟨k₀, v₀⟩ := p
      simp only [List.map_cons, List.mem_cons] at h
      push_neg at h
      simp [dictGet, h.1, ih h.2]

theorem dictGet_del_self_of_nodup {α β : Type} [DecidableEq α] (l : List (α × β)) (k : α)
    (h : (l.map Prod.fst).Nodup) : dictGet (dictDel l k) k = none := by
  induction l with
  | nil => rfl
  | cons p t ih =>
      obtain ⟨k₀, v₀⟩ := p
      simp only [List.map_cons, List.nodup_cons] at h
      by_cases hk : k = k₀
      · subst hk
        simp only [dictDel, if_pos rfl]
        exact dictGet_none_of_not_mem_keys t k h.1
      · simp [dictDel, dictGet, hk, ih h.2]

theorem mem_dictSet {α β : Type} [DecidableEq α] (l : List (α × β)) (k : α) (v : β)
    (p : α × β) (hp : p ∈ dictSet l k v) : p = (k, v) ∨ p ∈ l := by
  induction l with
  | nil =>
      simp only [dictSet, List.mem_singleton] at hp
      exact Or.inl hp
  | cons q t ih =>
      obtain ⟨k₀, v₀⟩ := q
      by_cases hk : k = k₀
      · subst hk
        have e : dictSet ((k, v₀) :: t) k v = (k, v) :: t := by
          simp [dictSet]
        rw [e] at hp
        rcases List.mem_cons.mp hp with hp' | hp'
        · exact Or.inl hp'
        · exact Or.inr (List.mem_cons_of_mem _ hp')
      · have e : dictSet ((k₀, v₀) :: t) k v = (k₀, v₀) :: dictSet t k v := by
          simp [dictSet, hk]
        rw [e] at hp
        rcases List.mem_cons.mp hp with hp' | hp'
        · exact Or.inr (List.mem_cons.mpr (Or.inl hp'))
        · rcases ih hp' with h' | h'
          · exact Or.inl h'
          · exact Or.inr (List.mem_cons_of_mem _ h')

theorem mem_dictDel {α β : Type} [DecidableEq α] (l : List (α × β)) (k : α)
    (p : α × β) (hp : p ∈ dictDel l k) : p ∈ l := by
  induction l with
  | nil =>
      simp only [dictDel] at hp
      exact absurd hp (List.not_mem_nil p)
  | cons q t ih =>
      obtain ⟨k₀, v₀⟩ := q
      by_cases hk : k = k₀
      · have e : dictDel ((k₀, v₀) :: t) k = t := by simp [dictDel, hk]
        rw [e] at hp
        exact List.mem_cons_of_mem _ hp
      · have e : dictDel ((k₀, v₀) :: t) k = (k₀, v₀) :: dictDel t k := by
          simp [dictDel, hk]
        rw [e] at hp
        rcases List.mem_cons.mp hp with hp' | hp'
        · exact List.mem_cons.mpr (Or.inl hp')
        · exact List.mem_cons_of_mem _ (ih hp')

theorem isSome_dictGet_set {α β : Type} [DecidableEq α] (l : List (α × β)) (k k' : α) (v : β)
    (h : (dictGet l k').isSome) : (dictGet (dictSet l k v) k').isSome := by
  by_cases hk : k' = k
  · subst hk; simp [dictGet_set_self]
  · rwa [dictGet_set_ne l k k' v hk]

/-- C10: a connect event for a socket handle that is already registered leaves
all state unchanged — the Socket and Client entries are retained, no registry
entry is created — and no "connected" acknowledgment (nor anything else) is
written; the duplicate attempt is only logged (`ClientManager.connect`,
else-branch, lines 74-77). -/
theorem connect_duplicate_noop (s : CMState) (sock : Nat) (ip freshuuid : String)
    (h : (dictGet s.sockets sock).isSome = true) :
    connect s sock ip freshuuid = (s, []) := by
  obtain ⟨v, hv⟩ := Option.isSome_iff_exists.mp h
  simp [connect, hv]

theorem connect_duplicate_noop_witness :
    ((dictGet (connect initState 3 "ip" "F").1.sockets 3).isSome = true) ∧
    connect (connect initState 3 "ip" "F").1 3 "ip2" "F2" =
      ((connect initState 3 "ip" "F").1, []) :=
  ⟨by decide, connect_duplicate_noop (connect initState 3 "ip" "F").1 3 "ip2" "F2" (by decide)⟩

/-- C9: connect on a fresh handle followed by disconnect on the same handle
leaves no socket-registry entry for the handle, no client-registry entry for
the generated client id, and no user's client list referencing it (the
generated `uuid4` id is fresh: absent from the registry and from every
session list beforehand). -/
theorem connect_then_disconnect_clean (s : CMState) (sock : Nat) (ip freshuuid : String)
    (hs : dictGet s.sockets sock = none)
    (hc : dictGet s.clients freshuuid = none)
    (hu : ∀ p ∈ s.users, freshuuid ∉ p.2.clients) :
    dictGet (disconnect (connect s sock ip freshuuid).1 sock).1.sockets sock = none ∧
    dictGet (disconnect (connect s sock ip freshuuid).1 sock).1.clients freshuuid = none ∧
    ∀ p ∈ (disconnect (connect s sock ip freshuuid).1 sock).1.users,
      freshuuid ∉ p.2.clients := by
  have h1 : (connect s sock ip freshuuid).1 =
      { s with sockets := dictSet s.sockets sock ⟨ip, freshuuid⟩,
               clients := dictSet s.clients freshuuid ⟨sock, ip, freshuuid, none, "", none⟩ } := by
    simp [connect, hs]
  rw [h1]
  have h2 : (disconnect
      { s with sockets := dictSet s.sockets sock ⟨ip, freshuuid⟩,
               clients := dictSet s.clients freshuuid ⟨sock, ip, freshuuid, none, "", none⟩ }
      sock).1 =
      { s with sockets := dictDel (dictSet s.sockets sock ⟨ip, freshuuid⟩) sock,
               clients := dictDel (dictSet s.clients freshuuid
                 ⟨sock, ip, freshuuid, none, "", none⟩) freshuuid } := by
    simp [disconnect, dictGet_set_self]
  rw [h2]
  refine ⟨?_, ?_, ?_⟩
  · rw [dictDel_set_of_none s.sockets sock _ hs]
    exact hs
  · rw [dictDel_set_of_none s.clients freshuuid _ hc]
    exact hc
  · exact hu

theorem connect_then_disconnect_clean_witness :
    dictGet (disconnect (connect initState 3 "ip" "F").1 3).1.sockets 3 = none ∧
    dictGet (disconnect (connect initState 3 "ip" "F").1 3).1.clients "F" = none ∧
    ∀ p ∈ (disconnect (connect initState 3 "ip" "F").1 3).1.users, "F" ∉ p.2.clients :=
  connect_then_disconnect_clean initState 3 "ip" "F" (by decide) (by decide)
    (by intro p hp; simp [initState] at hp)

/-- C8: every successfully processed authentication grant (one whose socket
handle and originating client id are still registered, so no exception cuts
the handler short) fires exactly three writes to the originating socket, in
order: the auth/login acknowledgment with the account's serializable fields,
then profile/get with the profile's, then clientconfig/get with the client
configuration's (`ClientManager.authentication`, lines 269-280). -/
theorem authentication_three_packets (s : CMState) (g : Grant)
    (hso : (dictGet s.sockets g.sock).isSome = true)
    (hc : (dictGet s.clients g.clientuuid).isSome = true) :
    (authentication s g).2 =
      [Fired.write g.sock (Payload.json (Packet.env "auth" "login" g.account.fields)),
       Fired.write g.sock (Payload.json (Packet.env "profile" "get" g.profile.fields)),
       Fired.write g.sock (Payload.json (Packet.env "clientconfig" "get" g.clientconfig.fields))] := by
  obtain ⟨so, hsov⟩ := Option.isSome_iff_exists.mp hso
  obtain ⟨oc, hocv⟩ := Option.isSome_iff_exists.mp hc
  simp [authentication, hsov, hocv]

theorem authentication_three_packets_witness :
    ((dictGet (⟨[("C1", ⟨1, "ip", "C1", none, "", none⟩)],
        [(1, ⟨"ip", "C1"⟩)], []⟩ : CMState).sockets 1).isSome = true) ∧
    (authentication ⟨[("C1", ⟨1, "ip", "C1", none, "", none⟩)], [(1, ⟨"ip", "C1"⟩)], []⟩
        ⟨⟨"U1", "af"⟩, ⟨"pf"⟩, ⟨"CFG1", "nm", "cf"⟩, "U1", "C1", 1⟩).2 =
      [Fired.write 1 (Payload.json (Packet.env "auth" "login" "af")),
       Fired.write 1 (Payload.json (Packet.env "profile" "get" "pf")),
       Fired.write 1 (Payload.json (Packet.env "clientconfig" "get" "cf"))] :=
  ⟨by decide,
   authentication_three_packets
     ⟨[("C1", ⟨1, "ip", "C1", none, "", none⟩)], [(1, ⟨"ip", "C1"⟩)], []⟩
     ⟨⟨"U1", "af"⟩, ⟨"pf"⟩, ⟨"CFG1", "nm", "cf"⟩, "U1", "C1", 1⟩
     (by decide) (by decide)⟩

/-- C1 counterexample: in `ClientManager.send` the `try` wraps the whole
per-user fan-out loop, so the `KeyError` for "bad" (a client id in the user's
list that is absent from `_clients`) jumps out of the loop: the later target
"good" — registered and reachable at socket 7 — receives nothing.  The fired
list is empty although the claim requires a delivery attempt to the remaining
target. -/
theorem send_abort_counterexample :
    ((dictGet sendAbortState.users "U").isSome = true) ∧
    dictGet sendAbortState.clients "bad" = none ∧
    ((dictGet sendAbortState.clients "good").isSome = true) ∧
    send sendAbortState ⟨"U", "pkt", "user", false⟩ = [] := by decide

theorem sendUserLoop_eq_deliveredTargets (cls : List (String × Client)) (raw : Bool)
    (packet : String) (l : List String) :
    sendUserLoop cls raw packet l =
      (deliveredTargets cls l).map (fun c => Fired.write c.sock (sendPayload raw packet)) := by
  induction l with
  | nil => rfl
  | cons cu rest ih =>
      cases h : dictGet cls cu with
      | none => simp [sendUserLoop, deliveredTargets, h]
      | some c => simp [sendUserLoop, deliveredTargets, h, ih]

/-- C1 amended: every exception during a send is caught at the per-send
handler boundary (the handler always returns, and the state is never
changed); sending to an unknown user id or unknown client id is dropped with
no writes, and a known client id gets exactly one write — `send` as a whole
equals the total description `sendSpec`; a "users" broadcast queues one
independent send event per known user, so one target's failure never affects
the other pending sends of the same broadcast call, and "clients" / "socks"
broadcasts write the content to every registered client socket / every raw
handle.  However, within a single send's fan-out over one user's client
list, an unresolvable id aborts the delivery attempts to the remaining
targets of that same fan-out — only the longest resolvable prefix of the
list is written to (that is the content of `sendSpec`'s user branch). -/
theorem send_fanout_amended (s : CMState) (ev : SendEvent) :
    send s ev = sendSpec s ev ∧
    (∀ content, broadcast s ⟨"users", content⟩ =
      s.users.map (fun p => Fired.sendEv p.1 content "user")) ∧
    (∀ content, broadcast s ⟨"clients", content⟩ =
      s.clients.map (fun p => Fired.write p.2.sock (Payload.content content))) ∧
    (∀ content, broadcast s ⟨"socks", content⟩ =
      s.sockets.map (fun p => Fired.write p.1 (Payload.content content))) := by
  refine ⟨?_, ?_, ?_, ?_⟩
  · by_cases ht : ev.sendtype = "user"
    · cases hu : dictGet s.users ev.uuid with
      | none => simp [send, sendSpec, ht, hu]
      | some u => simp [send, sendSpec, ht, hu, sendUserLoop_eq_deliveredTargets]
    · cases hc : dictGet s.clients ev.uuid with
      | none => simp [send, sendSpec, ht, hc]
      | some c => simp [send, sendSpec, ht, hc]
  · intro content
    simp [broadcast]
  · intro content
    simp [broadcast]
  · intro content
    simp [broadcast]

/-- C2 counterexample: a read on socket 5, which has no socket-registry entry,
carrying a well-formed auth/login message.  The `except` at line 181 logs but
does not return, so `clientuuid` stays `None` and the auth routing at lines
204-205 still fires an `authenticationrequest` — the claim's "no
authentication-request event is emitted" is violated. -/
theorem read_unknown_socket_counterexample :
    dictGet initState.sockets 5 = none ∧
    (readHandler [] initState 5 (Msg.envelope "auth" "login"
        (some (ReqData.loginData "u" "p" "rc")))).2.1 =
      [Fired.authrequest "u" "p" none "rc" 5] := by decide

theorem handleAuthenticationEvents_null_client (d : Option ReqData) (a : String)
    (sk : Nat) (f : Fired) (hf : f ∈ handleAuthenticationEvents d a none sk) :
    nullClientFired f := by
  unfold handleAuthenticationEvents at hf
  by_cases hl : a = "login"
  · rw [if_pos hl] at hf
    match d with
    | some (ReqData.loginData u p rcu) =>
        simp only [List.mem_singleton] at hf
        subst hf
        simp [nullClientFired]
    | some (ReqData.other s) => simp at hf
    | none => simp at hf
  · rw [if_neg hl] at hf
    by_cases ho : a = "logout"
    · rw [if_pos ho] at hf
      simp only [List.mem_singleton] at hf
      subst hf
      simp [nullClientFired]
    · rw [if_neg ho] at hf
      simp at hf

/-- C2 amended: a read whose originating socket has no registry entry changes
no registry or session-table state, dispatches no authorized event, writes
nothing, and raises nothing — but it is not dropped before the auth routing:
a well-formed auth login (resp. logout) message still emits an
authentication-request (resp. client-disconnect) event carrying a null client
id, because the socket-resolution failure at line 181 is logged without
returning. -/
theorem read_unknown_socket_amended (A : List String) (s : CMState) (sock : Nat)
    (msg : Msg) (h : dictGet s.sockets sock = none) :
    (readHandler A s sock msg).1 = s ∧
    (readHandler A s sock msg).2.2 = false ∧
    ∀ f ∈ (readHandler A s sock msg).2.1, nullClientFired f := by
  match msg with
  | Msg.invalid => exact ⟨rfl, rfl, by intro f hf; simp [readHandler] at hf⟩
  | Msg.noComponentAction => exact ⟨rfl, rfl, by intro f hf; simp [readHandler] at hf⟩
  | Msg.envelope comp act data =>
      by_cases hc : comp = "auth"
      · refine ⟨by simp [readHandler, h, hc], by simp [readHandler, h, hc], ?_⟩
        intro f hf
        simp only [readHandler, h, Option.map_none, if_pos hc] at hf
        exact handleAuthenticationEvents_null_client data act sock f hf
      · refine ⟨by simp [readHandler, h, hc], by simp [readHandler, h, hc], ?_⟩
        intro f hf
        simp [readHandler, h, hc] at hf

theorem read_unknown_socket_amended_witness :
    ((readHandler [] initState 5 (Msg.envelope "auth" "login"
        (some (ReqData.loginData "u" "p" "rc")))).1 = initState) ∧
    ((readHandler [] initState 5 (Msg.envelope "auth" "login"
        (some (ReqData.loginData "u" "p" "rc")))).2.2 = false) ∧
    ∀ f ∈ (readHandler [] initState 5 (Msg.envelope "auth" "login"
        (some (ReqData.loginData "u" "p" "rc")))).2.1, nullClientFired f :=
  read_unknown_socket_amended [] initState 5
    (Msg.envelope "auth" "login" (some (ReqData.loginData "u" "p" "rc"))) (by decide)

/-- C3 counterexample: a well-formed auth/logout message on a connection that
is not authenticated makes `self._users[useruuid]` at line 218 raise a
`KeyError` (`useruuid` is `None`), and lines 215-220 sit in no `try`, so the
exception escapes the read handler — contradicting "completes without raising
an uncaught exception past the router boundary". -/
theorem read_logout_raises_counterexample :
    (readHandler [] logoutRaiseState 0 (Msg.envelope "auth" "logout" none)).2.2 = true := by
  decide

/-- C3 amended: the read handler completes without raising past the router
boundary for every inbound message EXCEPT an auth/logout envelope whose
resolved client's user binding is broken (unauthenticated connection, bound
user record absent, or client id missing from the user's list) — in exactly
those cases a KeyError/ValueError escapes the handler. -/
theorem read_raises_iff_broken_logout (A : List String) (s : CMState) (sock : Nat)
    (msg : Msg) :
    (readHandler A s sock msg).2.2 = readRaiseCondition s sock msg := by
  cases msg with
  | invalid => rfl
  | noComponentAction => rfl
  | envelope comp act data =>
      simp only [readHandler, readRaiseCondition]
      repeat' split
      all_goals rfl

/-- C7: an authenticated client (socket registered and bound to client id
`so.clientuuid`, whose record carries user `uu`, present in the session table
with the client id in its list) sends auth/logout: afterwards the client id
is gone from that user's list (`list.remove`, first occurrence), the client
record is retained with its user binding cleared, and nothing raises; any
subsequent non-"auth" request on the same connection is then rejected — the
handler returns with the state unchanged, firing no authorized event and no
write (`ClientManager.read` lines 204-231). -/
theorem logout_detaches_and_rejects (A : List String) (s : CMState) (sock : Nat)
    (so : Socket) (c : Client) (uu : String) (user : User) (d : Option ReqData)
    (hso : dictGet s.sockets sock = some so)
    (hc : dictGet s.clients so.clientuuid = some c)
    (hcu : c.useruuid = some uu)
    (huser : dictGet s.users uu = some user)
    (hmem : so.clientuuid ∈ user.clients) :
    dictGet (readHandler A s sock (Msg.envelope "auth" "logout" d)).1.users uu =
      some { user with clients := user.clients.erase so.clientuuid } ∧
    dictGet (readHandler A s sock (Msg.envelope "auth" "logout" d)).1.clients so.clientuuid =
      some { c with useruuid := none } ∧
    (readHandler A s sock (Msg.envelope "auth" "logout" d)).2.2 = false ∧
    ∀ comp act d2, comp ≠ "auth" →
      readHandler A (readHandler A s sock (Msg.envelope "auth" "logout" d)).1 sock
        (Msg.envelope comp act d2) =
        ((readHandler A s sock (Msg.envelope "auth" "logout" d)).1, [], false) := by
  have h1 : (readHandler A s sock (Msg.envelope "auth" "logout" d)).1 =
      { s with
          users := dictSet s.users uu { user with clients := user.clients.erase so.clientuuid },
          clients := dictSet s.clients so.clientuuid { c with useruuid := none } } := by
    simp [readHandler, hso, hc, hcu, huser, hmem]
  have h2 : (readHandler A s sock (Msg.envelope "auth" "logout" d)).2.2 = false := by
    simp [readHandler, hso, hc, hcu, huser, hmem]
  refine ⟨?_, ?_, h2, ?_⟩
  · rw [h1]
    exact dictGet_set_self s.users uu _
  · rw [h1]
    exact dictGet_set_self s.clients so.clientuuid _
  · intro comp act d2 hcomp
    rw [h1]
    simp [readHandler, hso, hc, hcomp, dictGet_set_self]

theorem logout_detaches_and_rejects_witness :
    dictGet (readHandler [] ⟨[("CFG1", ⟨1, "ip", "CFG1", some "U1", "nm", none⟩)],
        [(1, ⟨"ip", "CFG1"⟩)],
        [("U1", ⟨⟨"U1", "af"⟩, ⟨"pf"⟩, "U1", ["CFG1"]⟩)]⟩ 1
        (Msg.envelope "auth" "logout" none)).1.users "U1" =
      some ⟨⟨"U1", "af"⟩, ⟨"pf"⟩, "U1", []⟩ ∧
    dictGet (readHandler [] ⟨[("CFG1", ⟨1, "ip", "CFG1", some "U1", "nm", none⟩)],
        [(1, ⟨"ip", "CFG1"⟩)],
        [("U1", ⟨⟨"U1", "af"⟩, ⟨"pf"⟩, "U1", ["CFG1"]⟩)]⟩ 1
        (Msg.envelope "auth" "logout" none)).1.clients "CFG1" =
      some ⟨1, "ip", "CFG1", none, "nm", none⟩ ∧
    (readHandler [] ⟨[("CFG1", ⟨1, "ip", "CFG1", some "U1", "nm", none⟩)],
        [(1, ⟨"ip", "CFG1"⟩)],
        [("U1", ⟨⟨"U1", "af"⟩, ⟨"pf"⟩, "U1", ["CFG1"]⟩)]⟩ 1
        (Msg.envelope "auth" "logout" none)).2.2 = false ∧
    ∀ comp act d2, comp ≠ "auth" →
      readHandler [] (readHandler [] ⟨[("CFG1", ⟨1, "ip", "CFG1", some "U1", "nm", none⟩)],
          [(1, ⟨"ip", "CFG1"⟩)],
          [("U1", ⟨⟨"U1", "af"⟩, ⟨"pf"⟩, "U1", ["CFG1"]⟩)]⟩ 1
          (Msg.envelope "auth" "logout" none)).1 1 (Msg.envelope comp act d2) =
        ((readHandler [] ⟨[("CFG1", ⟨1, "ip", "CFG1", some "U1", "nm", none⟩)],
          [(1, ⟨"ip", "CFG1"⟩)],
          [("U1", ⟨⟨"U1", "af"⟩, ⟨"pf"⟩, "U1", ["CFG1"]⟩)]⟩ 1
          (Msg.envelope "auth" "logout" none)).1, [], false) :=
  logout_detaches_and_rejects []
    ⟨[("CFG1", ⟨1, "ip", "CFG1", some "U1", "nm", none⟩)], [(1, ⟨"ip", "CFG1"⟩)],
      [("U1", ⟨⟨"U1", "af"⟩, ⟨"pf"⟩, "U1", ["CFG1"]⟩)]⟩ 1
    ⟨"ip", "CFG1"⟩ ⟨1, "ip", "CFG1", some "U1", "nm", none⟩ "U1"
    ⟨⟨"U1", "af"⟩, ⟨"pf"⟩, "U1", ["CFG1"]⟩ none
    (by decide) (by decide) (by decide) (by decide) (by decide)

/-- C4 counterexample: delivering `mismatchedGrant` (user_id "U1", config id
"CFG1", connected socket with temporary id "C1", no session for "U1") does
map "CFG1" in the client registry, but the session table has NO entry under
the key "U1" afterwards — the new User was keyed by `account.uuid` ("A1"),
so the claimed lookup under "U1" fails. -/
theorem authentication_userid_lookup_counterexample :
    mismatchedGrant.useruuid = "U1" ∧
    mismatchedGrant.clientconfig.clientuuid = "CFG1" ∧
    dictGet grantState.users "U1" = none ∧
    ((dictGet (authentication grantState mismatchedGrant).1.clients "CFG1").isSome = true) ∧
    dictGet (authentication grantState mismatchedGrant).1.users "U1" = none := by decide

/-- C4 amended: for a grant with user_id "U1" and config id "CFG1" whose
account uuid is ALSO "U1" (the source keys a newly created User by
`account.uuid`), delivered for a connected socket with temporary client id
"C1" and no existing session for "U1": afterwards the client registry maps
"CFG1" to the promoted Client and the session entry under "U1" exists with
client list exactly ["CFG1"]. -/
theorem authentication_grant_amended (s : CMState) (g : Grant) (so : Socket)
    (hu : g.useruuid = "U1") (hcfg : g.clientconfig.clientuuid = "CFG1")
    (horig : g.clientuuid = "C1") (hacc : g.account.uuid = "U1")
    (hso : dictGet s.sockets g.sock = some so) (hsocl : so.clientuuid = "C1")
    (hc : (dictGet s.clients "C1").isSome = true)
    (hnouser : dictGet s.users "U1" = none) :
    dictGet (authentication s g).1.users "U1" =
      some ⟨g.account, g.profile, "U1", ["CFG1"]⟩ ∧
    dictGet (authentication s g).1.clients "CFG1" =
      some ⟨g.sock, so.ip, "CFG1", some "U1", g.clientconfig.name, some g.clientconfig⟩ := by
  obtain ⟨oc, hocv⟩ := Option.isSome_iff_exists.mp hc
  rw [← horig] at hocv
  rw [← hu] at hnouser
  have h1 : (authentication s g).1 =
      { clients := dictSet (dictDel s.clients g.clientuuid) g.clientconfig.clientuuid
          ⟨g.sock, so.ip, g.clientconfig.clientuuid, some g.useruuid,
            g.clientconfig.name, some g.clientconfig⟩,
        sockets := dictSet s.sockets g.sock { so with clientuuid := g.clientconfig.clientuuid },
        users := dictSet (dictSet s.users g.account.uuid ⟨g.account, g.profile, g.useruuid, []⟩)
          g.account.uuid ⟨g.account, g.profile, g.useruuid, [g.clientconfig.clientuuid]⟩ } := by
    simp [authentication, hnouser, hso, hocv]
  rw [hacc, hu, hcfg] at h1
  rw [h1]
  exact ⟨dictGet_set_self _ _ _, dictGet_set_self _ _ _⟩

theorem authentication_grant_amended_witness :
    dictGet (authentication grantState
        ⟨⟨"U1", "af"⟩, ⟨"pf"⟩, ⟨"CFG1", "nm", "cf"⟩, "U1", "C1", 1⟩).1.users "U1" =
      some ⟨⟨"U1", "af"⟩, ⟨"pf"⟩, "U1", ["CFG1"]⟩ ∧
    dictGet (authentication grantState
        ⟨⟨"U1", "af"⟩, ⟨"pf"⟩, ⟨"CFG1", "nm", "cf"⟩, "U1", "C1", 1⟩).1.clients "CFG1" =
      some ⟨1, "10.0.0.1", "CFG1", some "U1", "nm", some ⟨"CFG1", "nm", "cf"⟩⟩ :=
  authentication_grant_amended grantState
    ⟨⟨"U1", "af"⟩, ⟨"pf"⟩, ⟨"CFG1", "nm", "cf"⟩, "U1", "C1", 1⟩ ⟨"10.0.0.1", "C1"⟩
    (by decide) (by decide) (by decide) (by decide) (by decide) (by decide)
    (by decide) (by decide)

/-- C5: an authentication grant for a previously-unauthenticated connected
client (socket registered, originating temporary id registered and distinct
from the stable config id, stable id not yet attached to the user, client
keys duplicate-free as Python dicts guarantee, and — as C4 records — the
grant's account uuid equal to its user id so that session creation and lookup
use the same key) transitions exactly one Client record: the temporary key is
removed, the stable key maps to the promoted record, every other key is
untouched; exactly one entry is appended to the corresponding User's client
list and other users are untouched.  Re-delivering the same grant appends no
duplicate entry and changes no client record (the `del` of the already-gone
temporary id raises and is caught at line 285), but processing up to that
point still re-updates the socket binding to the stable id. -/
theorem authentication_promotion (s : CMState) (g : Grant) (so : Socket) (oldc : Client)
    (hnodup : (s.clients.map Prod.fst).Nodup)
    (hacc : g.account.uuid = g.useruuid)
    (hso : dictGet s.sockets g.sock = some so)
    (hold : dictGet s.clients g.clientuuid = some oldc)
    (hne : g.clientuuid ≠ g.clientconfig.clientuuid)
    (hnew : ∀ u, dictGet s.users g.useruuid = some u →
      g.clientconfig.clientuuid ∉ u.clients) :
    dictGet (authentication s g).1.clients g.clientuuid = none ∧
    dictGet (authentication s g).1.clients g.clientconfig.clientuuid =
      some ⟨g.sock, so.ip, g.clientconfig.clientuuid, some g.useruuid,
        g.clientconfig.name, some g.clientconfig⟩ ∧
    (∀ k, k ≠ g.clientuuid → k ≠ g.clientconfig.clientuuid →
      dictGet (authentication s g).1.clients k = dictGet s.clients k) ∧
    (∃ u1, dictGet (authentication s g).1.users g.useruuid = some u1 ∧
      u1.clients = (match dictGet s.users g.useruuid with
                    | some u0 => u0.clients
                    | none => []) ++ [g.clientconfig.clientuuid]) ∧
    (∀ k, k ≠ g.useruuid → dictGet (authentication s g).1.users k = dictGet s.users k) ∧
    (authentication (authentication s g).1 g).1.users = (authentication s g).1.users ∧
    (authentication (authentication s g).1 g).1.clients = (authentication s g).1.clients ∧
    dictGet (authentication (authentication s g).1 g).1.sockets g.sock =
      some ⟨so.ip, g.clientconfig.clientuuid⟩ := by
  cases h0 : dictGet s.users g.useruuid with
  | none =>
      have hs1 : (authentication s g).1 =
          { clients := dictSet (dictDel s.clients g.clientuuid) g.clientconfig.clientuuid
              ⟨g.sock, so.ip, g.clientconfig.clientuuid, some g.useruuid,
                g.clientconfig.name, some g.clientconfig⟩,
            sockets := dictSet s.sockets g.sock
              { so with clientuuid := g.clientconfig.clientuuid },
            users := dictSet (dictSet s.users g.account.uuid
                ⟨g.account, g.profile, g.useruuid, []⟩) g.account.uuid
                ⟨g.account, g.profile, g.useruuid, [g.clientconfig.clientuuid]⟩ } := by
        simp [authentication, h0, hso, hold]
      have hc1 : dictGet (authentication s g).1.clients g.clientuuid = none := by
        rw [hs1]
        show dictGet (dictSet _ _ _) _ = none
        rw [dictGet_set_ne _ _ _ _ hne]
        exact dictGet_del_self_of_nodup s.clients g.clientuuid hnodup
      have hc2 : dictGet (authentication s g).1.clients g.clientconfig.clientuuid =
          some ⟨g.sock, so.ip, g.clientconfig.clientuuid, some g.useruuid,
            g.clientconfig.name, some g.clientconfig⟩ := by
        rw [hs1]
        exact dictGet_set_self _ _ _
      have hu1 : dictGet (authentication s g).1.users g.useruuid =
          some ⟨g.account, g.profile, g.useruuid, [g.clientconfig.clientuuid]⟩ := by
        rw [hs1]
        show dictGet (dictSet (dictSet _ _ _) _ _) _ = _
        rw [hacc]
        exact dictGet_set_self _ _ _
      have hso1 : dictGet (authentication s g).1.sockets g.sock =
          some { so with clientuuid := g.clientconfig.clientuuid } := by
        rw [hs1]
        exact dictGet_set_self _ _ _
      have hs2 : (authentication (authentication s g).1 g).1 =
          { clients := (authentication s g).1.clients,
            sockets := dictSet (authentication s g).1.sockets g.sock
              { so with clientuuid := g.clientconfig.clientuuid },
            users := (authentication s g).1.users } := by
        generalize hX : (authentication s g).1 = s1 at hu1 hso1 hc1 ⊢
        simp [authentication, hu1, hso1, hc1]
      refine ⟨hc1, hc2, ?_, ⟨⟨g.account, g.profile, g.useruuid,
        [g.clientconfig.clientuuid]⟩, hu1, by simp⟩, ?_, ?_, ?_, ?_⟩
      · intro k hk1 hk2
        rw [hs1]
        show dictGet (dictSet _ _ _) _ = _
        rw [dictGet_set_ne _ _ _ _ hk2]
        exact dictGet_del_ne _ _ _ hk1
      · intro k hk
        rw [hs1]
        show dictGet (dictSet (dictSet _ _ _) _ _) _ = _
        rw [hacc]
        rw [dictGet_set_ne _ _ _ _ hk, dictGet_set_ne _ _ _ _ hk]
      · rw [hs2]
      · rw [hs2]
      · rw [hs2]
        exact dictGet_set_self _ _ _
  | some u0 =>
      have hmem0 : g.clientconfig.clientuuid ∉ u0.clients := hnew u0 h0
      have hs1 : (authentication s g).1 =
          { clients := dictSet (dictDel s.clients g.clientuuid) g.clientconfig.clientuuid
              ⟨g.sock, so.ip, g.clientconfig.clientuuid, some g.useruuid,
                g.clientconfig.name, some g.clientconfig⟩,
            sockets := dictSet s.sockets g.sock
              { so with clientuuid := g.clientconfig.clientuuid },
            users := dictSet s.users g.useruuid
              { u0 with clients := u0.clients ++ [g.clientconfig.clientuuid] } } := by
        simp [authentication, h0, hso, hold, hmem0]
      have hc1 : dictGet (authentication s g).1.clients g.clientuuid = none := by
        rw [hs1]
        show dictGet (dictSet _ _ _) _ = none
        rw [dictGet_set_ne _ _ _ _ hne]
        exact dictGet_del_self_of_nodup s.clients g.clientuuid hnodup
      have hc2 : dictGet (authentication s g).1.clients g.clientconfig.clientuuid =
          some ⟨g.sock, so.ip, g.clientconfig.clientuuid, some g.useruuid,
            g.clientconfig.name, some g.clientconfig⟩ := by
        rw [hs1]
        exact dictGet_set_self _ _ _
      have hu1 : dictGet (authentication s g).1.users g.useruuid =
          some { u0 with clients := u0.clients ++ [g.clientconfig.clientuuid] } := by
        rw [hs1]
        exact dictGet_set_self _ _ _
      have hso1 : dictGet (authentication s g).1.sockets g.sock =
          some { so with clientuuid := g.clientconfig.clientuuid } := by
        rw [hs1]
        exact dictGet_set_self _ _ _
      have hs2 : (authentication (authentication s g).1 g).1 =
          { clients := (authentication s g).1.clients,
            sockets := dictSet (authentication s g).1.sockets g.sock
              { so with clientuuid := g.clientconfig.clientuuid },
            users := (authentication s g).1.users } := by
        generalize hX : (authentication s g).1 = s1 at hu1 hso1 hc1 ⊢
        simp [authentication, hu1, hso1, hc1]
      refine ⟨hc1, hc2, ?_, ⟨{ u0 with clients := u0.clients ++ [g.clientconfig.clientuuid] },
        hu1, by simp⟩, ?_, ?_, ?_, ?_⟩
      · intro k hk1 hk2
        rw [hs1]
        show dictGet (dictSet _ _ _) _ = _
        rw [dictGet_set_ne _ _ _ _ hk2]
        exact dictGet_del_ne _ _ _ hk1
      · intro k hk
        rw [hs1]
        show dictGet (dictSet _ _ _) _ = _
        rw [dictGet_set_ne _ _ _ _ hk]
      · rw [hs2]
      · rw [hs2]
      · rw [hs2]
        exact dictGet_set_self _ _ _

theorem authentication_promotion_witness :
    dictGet (authentication grantState
        ⟨⟨"U1", "af"⟩, ⟨"pf"⟩, ⟨"CFG1", "nm", "cf"⟩, "U1", "C1", 1⟩).1.clients "C1" = none ∧
    dictGet (authentication grantState
        ⟨⟨"U1", "af"⟩, ⟨"pf"⟩, ⟨"CFG1", "nm", "cf"⟩, "U1", "C1", 1⟩).1.clients "CFG1" =
      some ⟨1, "10.0.0.1", "CFG1", some "U1", "nm", some ⟨"CFG1", "nm", "cf"⟩⟩ ∧
    (∀ k, k ≠ "C1" → k ≠ "CFG1" →
      dictGet (authentication grantState
        ⟨⟨"U1", "af"⟩, ⟨"pf"⟩, ⟨"CFG1", "nm", "cf"⟩, "U1", "C1", 1⟩).1.clients k =
        dictGet grantState.clients k) ∧
    (∃ u1, dictGet (authentication grantState
        ⟨⟨"U1", "af"⟩, ⟨"pf"⟩, ⟨"CFG1", "nm", "cf"⟩, "U1", "C1", 1⟩).1.users "U1" = some u1 ∧
      u1.clients = (match dictGet grantState.users "U1" with
                    | some u0 => u0.clients
                    | none => []) ++ ["CFG1"]) ∧
    (∀ k, k ≠ "U1" →
      dictGet (authentication grantState
        ⟨⟨"U1", "af"⟩, ⟨"pf"⟩, ⟨"CFG1", "nm", "cf"⟩, "U1", "C1", 1⟩).1.users k =
        dictGet grantState.users k) ∧
    (authentication (authentication grantState
        ⟨⟨"U1", "af"⟩, ⟨"pf"⟩, ⟨"CFG1", "nm", "cf"⟩, "U1", "C1", 1⟩).1
        ⟨⟨"U1", "af"⟩, ⟨"pf"⟩, ⟨"CFG1", "nm", "cf"⟩, "U1", "C1", 1⟩).1.users =
      (authentication grantState
        ⟨⟨"U1", "af"⟩, ⟨"pf"⟩, ⟨"CFG1", "nm", "cf"⟩, "U1", "C1", 1⟩).1.users ∧
    (authentication (authentication grantState
        ⟨⟨"U1", "af"⟩, ⟨"pf"⟩, ⟨"CFG1", "nm", "cf"⟩, "U1", "C1", 1⟩).1
        ⟨⟨"U1", "af"⟩, ⟨"pf"⟩, ⟨"CFG1", "nm", "cf"⟩, "U1", "C1", 1⟩).1.clients =
      (authentication grantState
        ⟨⟨"U1", "af"⟩, ⟨"pf"⟩, ⟨"CFG1", "nm", "cf"⟩, "U1", "C1", 1⟩).1.clients ∧
    dictGet (authentication (authentication grantState
        ⟨⟨"U1", "af"⟩, ⟨"pf"⟩, ⟨"CFG1", "nm", "cf"⟩, "U1", "C1", 1⟩).1
        ⟨⟨"U1", "af"⟩, ⟨"pf"⟩, ⟨"CFG1", "nm", "cf"⟩, "U1", "C1", 1⟩).1.sockets 1 =
      some ⟨"10.0.0.1", "CFG1"⟩ :=
  authentication_promotion grantState
    ⟨⟨"U1", "af"⟩, ⟨"pf"⟩, ⟨"CFG1", "nm", "cf"⟩, "U1", "C1", 1⟩
    ⟨"10.0.0.1", "C1"⟩ ⟨1, "10.0.0.1", "C1", none, "", none⟩
    (by decide) (by decide) (by decide) (by decide) (by decide)
    (fun u h => by simp [grantState, dictGet] at h)

theorem mem_of_dictGet {α β : Type} [DecidableEq α] (l : List (α × β)) (k : α) (v : β)
    (h : dictGet l k = some v) : (k, v) ∈ l := by
  induction l with
  | nil => simp [dictGet] at h
  | cons p t ih =>
      obtain ⟨k₀, v₀⟩ := p
      by_cases hk : k = k₀
      · subst hk
        simp [dictGet] at h
        rw [← h]
        exact List.mem_cons_self _ _
      · simp only [dictGet, if_neg hk] at h
        exact List.mem_cons_of_mem _ (ih h)

theorem connect_preserves_refs (s : CMState) (sock : Nat) (ip freshuuid : String)
    (hinv : SessionRefsRegistered s) :
    SessionRefsRegistered (connect s sock ip freshuuid).1 := by
  cases hso : dictGet s.sockets sock with
  | some v => simpa [connect, hso] using hinv
  | none =>
      have h1 : (connect s sock ip freshuuid).1 =
          { s with sockets := dictSet s.sockets sock ⟨ip, freshuuid⟩,
                   clients := dictSet s.clients freshuuid
                     ⟨sock, ip, freshuuid, none, "", none⟩ } := by
        simp [connect, hso]
      rw [h1]
      intro p hp cid hcid
      exact isSome_dictGet_set _ _ _ _ (hinv p hp cid hcid)

theorem readHandler_preserves_refs (A : List String) (s : CMState) (sock : Nat)
    (msg : Msg) (hinv : SessionRefsRegistered s) :
    SessionRefsRegistered (readHandler A s sock msg).1 := by
  cases msg with
  | invalid => exact hinv
  | noComponentAction => exact hinv
  | envelope comp act data =>
      cases hso : (dictGet s.sockets sock).map Socket.clientuuid with
      | none => simpa [readHandler, hso] using hinv
      | some cu =>
          cases hcl : dictGet s.clients cu with
          | none => simpa [readHandler, hso, hcl] using hinv
          | some c =>
              by_cases hcomp : comp = "auth"
              · by_cases hact : act = "logout"
                · cases hcu : c.useruuid with
                  | none => simpa [readHandler, hso, hcl, hcomp, hact, hcu] using hinv
                  | some uu =>
                      cases hu : dictGet s.users uu with
                      | none =>
                          simpa [readHandler, hso, hcl, hcomp, hact, hcu, hu] using hinv
                      | some user =>
                          by_cases hm : cu ∈ user.clients
                          · have h1 : (readHandler A s sock (Msg.envelope comp act data)).1 =
                                { s with
                                    users := dictSet s.users uu
                                      { user with clients := user.clients.erase cu },
                                    clients := dictSet s.clients cu
                                      { c with useruuid := none } } := by
                              simp [readHandler, hso, hcl, hcomp, hact, hcu, hu, hm]
                            rw [h1]
                            intro p hp cid hcid
                            rcases mem_dictSet _ _ _ p hp with hpe | hpo
                            · subst hpe
                              have hcid' : cid ∈ user.clients := List.mem_of_mem_erase hcid
                              exact isSome_dictGet_set _ _ _ _
                                (hinv (uu, user) (mem_of_dictGet _ _ _ hu) cid hcid')
                            · exact isSome_dictGet_set _ _ _ _ (hinv p hpo cid hcid)
                          · simpa [readHandler, hso, hcl, hcomp, hact, hcu, hu, hm] using hinv
                · simpa [readHandler, hso, hcl, hcomp, hact] using hinv
              · cases hcu : c.useruuid with
                | none => simpa [readHandler, hso, hcl, hcomp, hcu] using hinv
                | some uu =>
                    cases hu : dictGet s.users uu with
                    | none => simpa [readHandler, hso, hcl, hcomp, hcu, hu] using hinv
                    | some user => simpa [readHandler, hso, hcl, hcomp, hcu, hu] using hinv

theorem disconnect_preserves_refs (s : CMState) (sock : Nat)
    (hinv : SessionRefsRegistered s)
    (hguard : ∀ so, dictGet s.sockets sock = some so →
      ∀ p ∈ s.users, so.clientuuid ∉ p.2.clients) :
    SessionRefsRegistered (disconnect s sock).1 := by
  cases hso : dictGet s.sockets sock with
  | none => simpa [disconnect, hso] using hinv
  | some so =>
      cases hcl : dictGet s.clients so.clientuuid with
      | none => simpa [disconnect, hso, hcl] using hinv
      | some c =>
          have h1 : (disconnect s sock).1 =
              { s with sockets := dictDel s.sockets sock,
                       clients := dictDel s.clients so.clientuuid } := by
            simp [disconnect, hso, hcl]
          rw [h1]
          intro p hp cid hcid
          have hne : cid ≠ so.clientuuid := by
            intro h
            exact hguard so hso p hp (h ▸ hcid)
          rw [dictGet_del_ne _ _ _ hne]
          exact hinv p hp cid hcid

theorem authentication_preserves_refs (s : CMState) (g : Grant)
    (hinv : SessionRefsRegistered s)
    (hso : (dictGet s.sockets g.sock).isSome = true)
    (hcl : (dictGet s.clients g.clientuuid).isSome = true)
    (hguard : ∀ p ∈ s.users, g.clientuuid ∉ p.2.clients) :
    SessionRefsRegistered (authentication s g).1 := by
  obtain ⟨so, hsov⟩ := Option.isSome_iff_exists.mp hso
  obtain ⟨oc, hocv⟩ := Option.isSome_iff_exists.mp hcl
  have hclients : ∀ cid, cid ≠ g.clientuuid →
      (dictGet s.clients cid).isSome = true →
      (dictGet (dictSet (dictDel s.clients g.clientuuid) g.clientconfig.clientuuid
        ⟨g.sock, so.ip, g.clientconfig.clientuuid, some g.useruuid,
          g.clientconfig.name, some g.clientconfig⟩) cid).isSome = true := by
    intro cid hne hsome
    by_cases hcfg : cid = g.clientconfig.clientuuid
    · subst hcfg
      rw [dictGet_set_self]
      rfl
    · rw [dictGet_set_ne _ _ _ _ hcfg, dictGet_del_ne _ _ _ hne]
      exact hsome
  cases h0 : dictGet s.users g.useruuid with
  | none =>
      have h1 : (authentication s g).1 =
          { clients := dictSet (dictDel s.clients g.clientuuid) g.clientconfig.clientuuid
              ⟨g.sock, so.ip, g.clientconfig.clientuuid, some g.useruuid,
                g.clientconfig.name, some g.clientconfig⟩,
            sockets := dictSet s.sockets g.sock
              { so with clientuuid := g.clientconfig.clientuuid },
            users := dictSet (dictSet s.users g.account.uuid
                ⟨g.account, g.profile, g.useruuid, []⟩) g.account.uuid
                ⟨g.account, g.profile, g.useruuid, [g.clientconfig.clientuuid]⟩ } := by
        simp [authentication, h0, hsov, hocv]
      rw [h1]
      intro p hp cid hcid
      rcases mem_dictSet _ _ _ p hp with hpe | hpo
      · subst hpe
        have hcfg : cid = g.clientconfig.clientuuid := by simpa using hcid
        subst hcfg
        rw [dictGet_set_self]
        rfl
      · rcases mem_dictSet _ _ _ p hpo with hpe2 | hpo2
        · subst hpe2
          simp at hcid
        · have hne : cid ≠ g.clientuuid := fun h => hguard p hpo2 (h ▸ hcid)
          exact hclients cid hne (hinv p hpo2 cid hcid)
  | some u0 =>
      by_cases hm : g.clientconfig.clientuuid ∈ u0.clients
      · have h1 : (authentication s g).1 =
            { clients := dictSet (dictDel s.clients g.clientuuid) g.clientconfig.clientuuid
                ⟨g.sock, so.ip, g.clientconfig.clientuuid, some g.useruuid,
                  g.clientconfig.name, some g.clientconfig⟩,
              sockets := dictSet s.sockets g.sock
                { so with clientuuid := g.clientconfig.clientuuid },
              users := s.users } := by
          simp [authentication, h0, hsov, hocv, hm]
        rw [h1]
        intro p hp cid hcid
        have hne : cid ≠ g.clientuuid := fun h => hguard p hp (h ▸ hcid)
        exact hclients cid hne (hinv p hp cid hcid)
      · have h1 : (authentication s g).1 =
            { clients := dictSet (dictDel s.clients g.clientuuid) g.clientconfig.clientuuid
                ⟨g.sock, so.ip, g.clientconfig.clientuuid, some g.useruuid,
                  g.clientconfig.name, some g.clientconfig⟩,
              sockets := dictSet s.sockets g.sock
                { so with clientuuid := g.clientconfig.clientuuid },
              users := dictSet s.users g.useruuid
                { u0 with clients := u0.clients ++ [g.clientconfig.clientuuid] } } := by
          simp [authentication, h0, hsov, hocv, hm]
        rw [h1]
        intro p hp cid hcid
        rcases mem_dictSet _ _ _ p hp with hpe | hpo
        · subst hpe
          rcases List.mem_append.mp hcid with hin | hin
          · have hne : cid ≠ g.clientuuid :=
              fun h => hguard (g.useruuid, u0) (mem_of_dictGet _ _ _ h0) (h ▸ hin)
            exact hclients cid hne
              (hinv (g.useruuid, u0) (mem_of_dictGet _ _ _ h0) cid hin)
          · have hcfg : cid = g.clientconfig.clientuuid := by simpa using hin
            subst hcfg
            rw [dictGet_set_self]
            rfl
        · have hne : cid ≠ g.clientuuid := fun h => hguard p hpo (h ▸ hcid)
          exact hclients cid hne (hinv p hpo cid hcid)

/-- C6 counterexample: the state reached by connect, grant, disconnect —
three steps of the unrestricted transition system — has user "U1"'s client
list still holding "CFG1" while the client registry no longer has that key:
`disconnect` deletes the registry entry without detaching it from the
session list, so the claimed invariant fails on a reachable state. -/
theorem session_refs_counterexample :
    Reachable [] c6FinalState ∧ ¬ SessionRefsRegistered c6FinalState := by
  constructor
  · exact Reachable.step _ _ (Reachable.step _ _ (Reachable.step _ _ Reachable.init))
  · decide

/-- C6 amended: in every state reachable from the empty registries by
connect, read, authentication-grant and disconnect events in which each
disconnect targets a socket whose bound client is not attached to any user
and each grant names a registered socket and a registered, unattached
originating client id, every entry of every User's client list is a key of
the client registry.  (Unrestricted, the invariant fails — see the
counterexample: disconnect and partially applied grants break it.) -/
theorem session_refs_guarded (A : List String) (s : CMState)
    (h : ReachableGuarded A s) : SessionRefsRegistered s := by
  induction h with
  | init =>
      intro p hp cid hcid
      simp [initState] at hp
  | step s e hr hg ih =>
      cases e with
      | connectEv sock ip freshuuid => exact connect_preserves_refs s sock ip freshuuid ih
      | disconnectEv sock => exact disconnect_preserves_refs s sock ih hg
      | readEv sock msg => exact readHandler_preserves_refs A s sock msg ih
      | authEv g => exact authentication_preserves_refs s g ih hg.1 hg.2.1 hg.2.2

theorem session_refs_guarded_witness :
    SessionRefsRegistered (stepState [] initState (Event.connectEv 0 "ip" "C1")) :=
  session_refs_guarded [] _
    (ReachableGuarded.step _ _ ReachableGuarded.init True.intro)
